import Mathlib

/-!
Shallow embedding of the PandaboxCoTiCtrl counter/timer controller
(src/sardana_pandabox/ctrl/PandaboxCoTiCtrl.py).

Python floats are modelled as exact rationals.  The appliance command
socket and the data-stream socket are external collaborators: each
method takes the responses/lines it would receive as explicit inputs,
and the requests it issues are collected in a log.  Python exceptions
are modelled with Except; a method that mutates the object before
raising returns the partially mutated state alongside the error.
-/

set_option autoImplicit false

namespace Pandabox

/-- Boolean test: the first character list is an initial segment of the second. -/
def startsWithL : List Char → List Char → Bool
  | [], _ => true
  | _ :: _, [] => false
  | a :: as, b :: bs => (a == b) && startsWithL as bs

/-- Boolean substring occurrence test on character lists. -/
def containsL (pat : List Char) : List Char → Bool
  | [] => pat.isEmpty
  | c :: t => startsWithL pat (c :: t) || containsL pat t

/-- Python substring test: pat occurs in s. -/
def strContains (s pat : String) : Bool :=
  containsL pat.toList s.toList

/-- Python str.split on a single separator character (keeps empty pieces). -/
def splitOnChar (sep : Char) : List Char → List (List Char)
  | [] => [[]]
  | c :: t =>
    match splitOnChar sep t with
    | [] => [[c]]
    | h :: r => if c == sep then [] :: h :: r else (c :: h) :: r

/-- Numeric value of a digit string. -/
def natOfDigits (l : List Char) : Nat :=
  l.foldl (fun a c => 10 * a + (c.toNat - 48)) 0

/-- Parse an unsigned decimal numeral, optionally with a fractional part. -/
def parseUnsigned (l : List Char) : Option Rat :=
  match l.span Char.isDigit with
  | (ds, rest) =>
    if ds.isEmpty then none
    else
      match rest with
      | [] => some (mkRat (natOfDigits ds) 1)
      | '.' :: fs =>
        if fs.isEmpty then none
        else if fs.all Char.isDigit then
          some (mkRat (natOfDigits (ds ++ fs)) ((10 : Nat) ^ fs.length))
        else none
      | _ => none

/-- Parse one whitespace-separated float token (decimal notation). -/
def parseRatTok (l : List Char) : Option Rat :=
  match l with
  | '-' :: t => (parseUnsigned t).map (fun x => -x)
  | t => parseUnsigned t

/-- The whitespace-separated tokens of one line. -/
def lineTokens (l : List Char) : List (List Char) :=
  (splitOnChar ' ' l).filter (fun t => ! t.isEmpty)

/-- A decoded numpy array.  np.genfromtxt squeezes a single row or a
single column to one dimension, which the controller relies on. -/
inductive NDArr where
  | one (v : List Rat)
  | two (cols : Nat) (rows : List (List Rat))
  deriving DecidableEq, Repr

/-- Transpose of a table with a known column count. -/
def transpose2 (cols : Nat) (rows : List (List Rat)) : List (List Rat) :=
  (List.range cols).map (fun j => rows.map (fun r => r.getD j 0))

/-- np.genfromtxt on the accumulated text buffer: whitespace-separated
floats, one row per non-blank line; none models a parse failure on a
malformed (non-rectangular or non-numeric) buffer. -/
def genfromtxtM (buf : String) : Option NDArr :=
  let ls := (splitOnChar '\n' buf.toList).filter (fun l => ! (lineTokens l).isEmpty)
  match ls.mapM (fun l => (lineTokens l).mapM parseRatTok) with
  | none => none
  | some [] => some (NDArr.one [])
  | some [r] => some (NDArr.one r)
  | some (r :: rs) =>
    if (r :: rs).all (fun x => x.length == r.length) then
      if r.length == 1 then some (NDArr.one ((r :: rs).map (fun x => x.headD 0)))
      else some (NDArr.two r.length (r :: rs))
    else none

/-- Sardana synchronization modes (sardana.pool.AcqSynch). -/
inductive AcqSynch where
  | SoftwareTrigger | SoftwareGate | HardwareTrigger | HardwareGate
  deriving DecidableEq, Repr

/-- Sardana states used by the controller (sardana.State). -/
inductive SState where
  | On | Moving | Fault
  deriving DecidableEq, Repr

/-- Python exceptions raised by the controller code. -/
inductive PyErr where
  | exn (msg : String)
  | valueError (msg : String)
  | typeError
  | attrError
  | indexError
  | keyError
  deriving DecidableEq, Repr

/-- Requests issued to the appliance command socket or the data socket.
pulseWidth v stands for the query PULSE1.WIDTH=v rendered with nine
decimal places. -/
inductive Cmd where
  | query (s : String)
  | pulseWidth (v : Rat)
  | numquery (s : String)
  | getNumChannels
  | streamReadline
  | streamReadlines (n : Nat)
  | streamClose
  deriving DecidableEq, Repr

/-- Result of ReadOne: Python None, a SardanaValue scalar, or a list. -/
inductive ReadResult where
  | noData
  | scalar (v : Rat)
  | seqv (vs : List Rat)
  deriving DecidableEq, Repr

/-- The two per-axis extra attributes. -/
inductive AxAttrName where
  | channelName | acquisitionMode
  deriving DecidableEq, Repr

/-- The three hardware-trigger configuration controller properties. -/
structure HwCfg where
  enable : String
  gate : String
  trig : String
  deriving DecidableEq, Repr

/-- Per-axis attribute record (a value of the self.attributes dict). -/
structure AxisAttr where
  channelName : Option String
  acquisitionMode : String
  deriving DecidableEq, Repr

/-- The mutable instance fields of the Python controller object.
Fields that __init__ leaves unset (itime, new_data, data_ready, state,
status are first assigned in later methods) are modelled as Options so
that reading them while unset is observable. -/
structure Ctrl where
  data_buffer : String
  header_okay_flag : Bool
  data_end_flag : Bool
  attributes : List (Nat × AxisAttr)
  hw_trigger_cfg : HwCfg
  channels_order : List String
  index : Nat
  repetitions : Nat
  synchronization : AcqSynch
  itime : Option Rat
  new_data : Option (List (List Rat))
  data_ready : Option Nat
  state : Option SState
  status : Option String
  deriving DecidableEq, Repr

/-- One method call: resulting object state, the requests issued, and
the normal result or the raised exception. -/
structure Eff (α : Type) where
  ctrl : Ctrl
  log : List Cmd
  out : Except PyErr α

/-- Dict lookup in the attributes dict (keyed by axis - 1). -/
def lookupA : List (Nat × AxisAttr) → Nat → Option AxisAttr
  | [], _ => none
  | (k, a) :: t, i => if k = i then some a else lookupA t i

/-- Dict update in the attributes dict. -/
def setA : List (Nat × AxisAttr) → Nat → AxisAttr → List (Nat × AxisAttr)
  | [], i, a => [(i, a)]
  | (k, b) :: t, i, a => if k = i then (i, a) :: t else (k, b) :: setA t i a

/-- Python str() applied to the ChannelName attribute value. -/
def pyStr : Option String → String
  | none => "None"
  | some s => s

/-- The software-synchronization test used throughout the controller. -/
def isSoftware : AcqSynch → Bool
  | AcqSynch.SoftwareTrigger => true
  | AcqSynch.SoftwareGate => true
  | _ => false

/-- self._modes: the acceptable acquisition modes. -/
def _modes : List String :=
  ["Value", "Diff", "Min", "Max", "Sum", "Mean"]

/-- self._channels: the acceptable channel names. -/
def _channels : List String :=
  ["INENC1.VAL", "INENC2.VAL", "INENC3.VAL", "INENC4.VAL",
   "CALC1.OUT", "CALC2.OUT", "COUNTER1.OUT", "COUNTER2.OUT",
   "COUNTER3.OUT", "COUNTER4.OUT", "COUNTER5.OUT", "COUNTER6.OUT",
   "COUNTER7.OUT", "COUNTER8.OUT", "FILTER1.OUT", "FILTER2.OUT",
   "PGEN1.OUT", "PGEN2.OUT", "QDEC.OUT", "FMC_ACQ427_IN.VAL1",
   "FMC_ACQ427_IN.VAL2", "FMC_ACQ427_IN.VAL3", "FMC_ACQ427_IN.VAL4",
   "FMC_ACQ427_IN.VAL5", "FMC_ACQ427_IN.VAL6", "FMC_ACQ427_IN.VAL7",
   "FMC_ACQ427_IN.VAL8", "PCAP.SAMPLES"]

/-- The object state established by __init__ (after the PCAP reset and
the data-stream handshake, both of which only touch the appliance). -/
def initCtrl (cfg : HwCfg) (sync : AcqSynch) : Ctrl :=
  { data_buffer := ""
    header_okay_flag := false
    data_end_flag := false
    attributes := []
    hw_trigger_cfg := cfg
    channels_order := []
    index := 0
    repetitions := 0
    synchronization := sync
    itime := none
    new_data := none
    data_ready := none
    state := none
    status := none }

/-- The minimum reliable integration time of 8e-08 seconds (ten FPGA
clock ticks at 125 MHz). -/
def minItime : Rat := mkRat 8 100000000

/-- AddDevice(axis): create the axis attribute record; any non-timer
axis additionally resets the continuous-scan count buffer index. -/
def AddDevice (c : Ctrl) (axis : Nat) : Ctrl :=
  let a0 : AxisAttr := { channelName := none, acquisitionMode := "Value" }
  let c1 := { c with attributes := setA c.attributes (axis - 1) a0 }
  if axis ≠ 1 then { c1 with index := 0 } else c1

/-- StateAll(): map the *PCAP.STATUS? response onto a sardana state.
In the branch for a response containing OK but neither Busy nor Idle,
the source's debug call evaluates a format expression with three
placeholders but two arguments, so after assigning state it raises:
an AttributeError when self.status is still unset (first call),
otherwise a TypeError; self.status is not updated on that path. -/
def StateAll (c : Ctrl) (resp : String) : Eff Unit :=
  let log : List Cmd := [Cmd.query ("*PCAP.STATUS?")]
  if strContains resp ("Busy") then
    ⟨{ c with state := some SState.Moving, status := some resp }, log, Except.ok ()⟩
  else if strContains resp ("Idle") then
    ⟨{ c with state := some SState.On, status := some resp }, log, Except.ok ()⟩
  else if strContains resp ("OK") = false then
    ⟨{ c with state := some SState.Fault, status := some resp }, log, Except.ok ()⟩
  else
    match c.status with
    | none => ⟨{ c with state := some SState.Fault }, log, Except.error PyErr.attrError⟩
    | some _ => ⟨{ c with state := some SState.Fault }, log, Except.error PyErr.typeError⟩

/-- LoadOne(axis, value, repetitions): only axis 1 is accepted; stores
the integration time, clamps the pulse width command (but only the
command) to 8e-8 s, routes the gate/trigger links according to the
synchronization mode, and resets the stream-decoding state. -/
def LoadOne (c : Ctrl) (axis : Nat) (value : Rat) (reps : Nat) : Eff Unit :=
  if axis ≠ 1 then
    ⟨c, [], Except.error (PyErr.exn ("The master channel should be the axis 1"))⟩
  else
    let c1 := { c with itime := some value, index := 0 }
    let v := if value < minItime then minItime else value
    let log2 := [Cmd.query ("PULSE1.WIDTH.UNITS=s"), Cmd.pulseWidth v,
                 Cmd.query ("PCAP.TRIG_EDGE=Falling")]
    let step :=
      if isSoftware c1.synchronization then
        ({ c1 with repetitions := 1 }, log2 ++ [Cmd.query ("PULSE1.PULSES=1")], "PULSE1.OUT")
      else
        ({ c1 with repetitions := reps }, log2, c1.hw_trigger_cfg.trig)
    let c2 := step.1
    let log4 := step.2.1 ++ [Cmd.query ("PCAP.GATE=" ++ step.2.2),
                             Cmd.query ("PCAP.TRIG=" ++ step.2.2)]
    let c3 := { c2 with header_okay_flag := false, data_end_flag := false, data_buffer := "" }
    ⟨c3, log4, Except.ok ()⟩

/-- PreStartOneCT(axis). -/
def PreStartOneCT (c : Ctrl) (axis : Nat) : Ctrl × Bool :=
  if axis ≠ 1 then ({ c with index := 0 }, true) else (c, true)

/-- The status-poll loop of StartAllCT: StateAll is called repeatedly
until it observes a Moving state; polls is the sequence of status
responses the appliance returns within the 3-second window, so an
exhausted list means the bound elapsed without a Busy status. -/
def pollStatuses (c : Ctrl) : List String → Eff Unit
  | [] => ⟨c, [], Except.error (PyErr.exn ("The HW did not start the acquisition"))⟩
  | r :: rs =>
    let e := StateAll c r
    match e.out with
    | Except.error err => ⟨e.ctrl, e.log, Except.error err⟩
    | Except.ok _ =>
      if e.ctrl.state = some SState.Moving then ⟨e.ctrl, e.log, Except.ok ()⟩
      else
        let e2 := pollStatuses e.ctrl rs
        ⟨e2.ctrl, e.log ++ e2.log, e2.out⟩

/-- StartAllCT(): arm (with one disarm+re-arm retry if the arm response
lacks OK), enable PCAP, pulse the software trigger when appropriate,
then poll the status until Busy or until the 3-second bound. -/
def StartAllCT (c : Ctrl) (armResp : String) (polls : List String) : Eff Bool :=
  let log1 : List Cmd := [Cmd.query ("*PCAP.ARM=")]
  let log2 :=
    if strContains armResp ("OK") then log1
    else log1 ++ [Cmd.query ("*PCAP.DISARM="), Cmd.query ("*PCAP.ARM=")]
  let log3 := log2 ++ [Cmd.query ("PCAP.ENABLE=ONE")]
  let log4 :=
    if isSoftware c.synchronization then
      log3 ++ [Cmd.query ("PULSE1.TRIG=ZERO"), Cmd.query ("PULSE1.TRIG=ONE")]
    else log3
  let e := pollStatuses c polls
  match e.out with
  | Except.ok _ => ⟨e.ctrl, log4 ++ e.log, Except.ok true⟩
  | Except.error err => ⟨e.ctrl, log4 ++ e.log, Except.error err⟩

/-- The channel-name extraction loop of _ParseHeader: for each channel
line take field 1 of split(' '); a line with fewer than two fields
raises IndexError after the earlier names were already appended. -/
def extractNames : List String → List String × Option PyErr
  | [] => ([], none)
  | l :: ls =>
    match (splitOnChar ' ' l.toList).get? 1 with
    | none => ([], some PyErr.indexError)
    | some nm =>
      let r := extractNames ls
      (String.mk nm :: r.1, r.2)

/-- _ParseHeader(): when the header flag is still unset, read the fixed
preamble plus one line per enabled channel (plus the blank line) from
the data socket; headerLines = none models a socket.error, in which
case data_header stays the empty string, the flag stays false and the
channel loop runs over an empty slice. -/
def ParseHeader (c : Ctrl) (numChannels : Nat) (headerLines : Option (List String)) : Eff Unit :=
  if c.header_okay_flag then ⟨c, [], Except.ok ()⟩
  else
    let num_lines := 4 + numChannels
    let log : List Cmd := [Cmd.getNumChannels, Cmd.streamReadlines (num_lines + 1)]
    match headerLines with
    | none =>
      ⟨{ c with header_okay_flag := false, channels_order := [] }, log, Except.ok ()⟩
    | some ls =>
      match ls.get? 3 with
      | none => ⟨c, log, Except.error PyErr.indexError⟩
      | some l3 =>
        let c1 := if strContains l3 ("fields") then { c with header_okay_flag := true } else c
        let r := extractNames ((ls.drop 4).take numChannels)
        let c2 := { c1 with channels_order := r.1 }
        match r.2 with
        | some e => ⟨c2, log, Except.error e⟩
        | none => ⟨c2, log, Except.ok ()⟩

/-- The untyped tolist(transpose(data_only)) step of ReadAll, including
the wrapping of a one-dimensional result into singleton rows; reading
new_data[0] from an empty result raises IndexError. -/
def ndListE : NDArr → Except PyErr (List (List Rat))
  | NDArr.one [] => Except.error PyErr.indexError
  | NDArr.one v => Except.ok (v.map (fun x => [x]))
  | NDArr.two k m =>
    match transpose2 k m with
    | [] => Except.error PyErr.indexError
    | t => Except.ok t

/-- The decode tail of ReadAll (lines 258-277 of the source): re-parse
the whole buffer, crop a two-dimensional array to the rows past the
cursor, transpose, synthesize the timer column, and advance the cursor
when repetitions is not 1.  On the paths where Python raises between
the new_data assignment and the end, the model keeps the empty
new_data set at the top of ReadAll (Python leaves an intermediate
flat list there, which is never observed by the claims). -/
def ReadAllDecode (c : Ctrl) (captured : Nat) : Ctrl × Except PyErr Unit :=
  match genfromtxtM c.data_buffer with
  | none => (c, Except.error (PyErr.exn ("genfromtxt failed")))
  | some arr =>
    let data_only :=
      match arr with
      | NDArr.two k m => NDArr.two k ((m.drop c.index).take (captured + 1 - c.index))
      | a => a
    if c.index ≤ captured then
      match ndListE data_only with
      | Except.error e => (c, Except.error e)
      | Except.ok nd =>
        match c.itime with
        | none => ({ c with new_data := some nd }, Except.error PyErr.attrError)
        | some it =>
          let time_data := List.replicate (nd.headD []).length it
          let c2 := { c with new_data := some (time_data :: nd) }
          let c3 :=
            if c2.repetitions ≠ 1 then { c2 with index := c2.index + time_data.length } else c2
          (c3, Except.ok ())
    else (c, Except.ok ())

/-- ReadAll(): query the captured-row count; with zero rows only try to
parse the header; with 1..repetitions rows disable PCAP when the count
has reached repetitions, drain one stream line (unless END was already
seen; sockLine = none models a socket.error, after which the data
socket is closed), and decode the buffer; a count above repetitions
falls through without any action. -/
def ReadAll (c : Ctrl) (captured : Nat) (numChannels : Nat)
    (headerLines : Option (List String)) (sockLine : Option String) : Eff Unit :=
  let c0 := { c with data_ready := some captured, new_data := some [] }
  let log0 : List Cmd := [Cmd.numquery ("*PCAP.CAPTURED?")]
  if captured = 0 then
    let r := ParseHeader c0 numChannels headerLines
    ⟨r.ctrl, log0 ++ r.log, r.out⟩
  else if captured ≤ c0.repetitions then
    let log1 :=
      if captured = c0.repetitions then log0 ++ [Cmd.query ("PCAP.ENABLE=ZERO")] else log0
    let drain :=
      if c0.data_end_flag = false then
        match sockLine with
        | some d =>
          if strContains d ("END") then ({ c0 with data_end_flag := true }, [Cmd.streamReadline])
          else ({ c0 with data_buffer := c0.data_buffer ++ d }, [Cmd.streamReadline])
        | none => (c0, [Cmd.streamReadline, Cmd.streamClose])
      else (c0, [])
    let r := ReadAllDecode drain.1 captured
    ⟨r.1, log1 ++ drain.2, r.2⟩
  else
    ⟨c0, log0, Except.ok ()⟩

/-- The column selection and read tail of ReadOne: under software
synchronization return the first row of the column as a scalar,
otherwise return the whole freshly decoded column. -/
def readColumn (c : Ctrl) (nd : List (List Rat)) (i : Nat) : Except PyErr ReadResult :=
  if isSoftware c.synchronization then
    match nd.get? i with
    | none => Except.error PyErr.indexError
    | some col =>
      match col.get? 0 with
      | none => Except.error PyErr.indexError
      | some v => Except.ok (ReadResult.scalar v)
  else
    match nd.get? i with
    | none => Except.error PyErr.indexError
    | some col => Except.ok (ReadResult.seqv col)

/-- ReadOne(axis): reading self.new_data before any ReadAll raises
AttributeError (the field is first assigned there, not in __init__);
with an empty new_data return None; otherwise resolve the column as
position-in-header plus 1 for a bound channel (0 for the timer),
raising ValueError when the bound name is not in channels_order. -/
def ReadOne (c : Ctrl) (axis : Nat) : Except PyErr ReadResult :=
  match c.new_data with
  | none => Except.error PyErr.attrError
  | some nd =>
    if nd.length = 0 then Except.ok ReadResult.noData
    else
      let idxE : Except PyErr Nat :=
        if axis = 1 then Except.ok 0
        else
          match lookupA c.attributes (axis - 1) with
          | none => Except.error PyErr.keyError
          | some a =>
            let channel_name := pyStr a.channelName
            if channel_name ∈ c.channels_order then
              Except.ok (c.channels_order.indexOf channel_name + 1)
            else
              Except.error (PyErr.valueError ("Channel name configured is not enabled in pandabox"))
      match idxE with
      | Except.error e => Except.error e
      | Except.ok channel_index => readColumn c nd channel_index

/-- AbortOne(axis). -/
def AbortOne (c : Ctrl) : Eff Unit :=
  ⟨c, [Cmd.query ("*PCAP.DISARM=")], Except.ok ()⟩

/-- StopOne(axis). -/
def StopOne (c : Ctrl) : Eff Unit :=
  ⟨c, [Cmd.query ("PCAP.ENABLE=ZERO"), Cmd.query ("*PCAP.DISARM=")], Except.ok ()⟩

/-- SetExtraAttributePar(axis, name, value): validate the value, then
disable capture of the previously bound channel (if any), record the
new attribute value, and enable capture built from the current
ChannelName and AcquisitionMode.  When ChannelName is still None the
capture-command concatenation None + str raises TypeError, after the
new value was already recorded. -/
def SetExtraAttributePar (c : Ctrl) (axis : Nat) (name : AxAttrName) (value : String) :
    Eff Unit :=
  if axis = 1 then
    ⟨c, [], Except.error (PyErr.valueError ("The axis 1 does not use the extra attributes"))⟩
  else
    if name = AxAttrName.acquisitionMode ∧ value ∉ _modes then
      ⟨c, [], Except.error (PyErr.exn ("AcquisitionMode value not acceptable"))⟩
    else if name = AxAttrName.channelName ∧ value ∉ _channels then
      ⟨c, [], Except.error (PyErr.exn ("ChannelName value not acceptable"))⟩
    else
      match lookupA c.attributes (axis - 1) with
      | none => ⟨c, [], Except.error PyErr.keyError⟩
      | some a =>
        let log1 : List Cmd :=
          match a.channelName with
          | some prev => [Cmd.query (prev ++ ".CAPTURE=No")]
          | none => []
        let a2 :=
          match name with
          | AxAttrName.channelName => { a with channelName := some value }
          | AxAttrName.acquisitionMode => { a with acquisitionMode := value }
        let c2 := { c with attributes := setA c.attributes (axis - 1) a2 }
        match a2.channelName with
        | none => ⟨c2, log1, Except.error PyErr.typeError⟩
        | some ch =>
          ⟨c2, log1 ++ [Cmd.query (ch ++ ".CAPTURE=" ++ a2.acquisitionMode)], Except.ok ()⟩

/-- Hardware-trigger configuration used by the concrete scenarios
(PcapEnable, PcapGate, PcapTrig controller properties). -/
def hwCfg0 : HwCfg :=
  { enable := "ONE", gate := "ONE", trig := "TTLIN1.VAL" }

/-- Fresh controller under software synchronization. -/
def c0sw : Ctrl := initCtrl hwCfg0 AcqSynch.SoftwareTrigger

/-- Fresh controller under hardware synchronization. -/
def c0hw : Ctrl := initCtrl hwCfg0 AcqSynch.HardwareTrigger

/-- A stream header block: four preamble lines, one line per enabled
channel, and the trailing blank line; its parsed channel list is
INENC1.VAL, COUNTER1.OUT. -/
def headerLines1 : List String :=
  ["missed: 0", "process: Scaled", "format: ASCII", "fields:",
   "1 INENC1.VAL pos", "2 COUNTER1.OUT cnt", ""]

/-- C1 scenario: two axes, axis 2 bound to COUNTER1.OUT. -/
def c1_dev : Ctrl := AddDevice (AddDevice c0sw 1) 2

/-- C1 scenario: bind axis 2 to COUNTER1.OUT. -/
def c1_bind : Eff Unit := SetExtraAttributePar c1_dev 2 AxAttrName.channelName ("COUNTER1.OUT")

/-- C1 scenario: software-synchronized Load with integration time 0.5. -/
def c1_load : Eff Unit := LoadOne c1_bind.ctrl 1 (mkRat 1 2) 1

/-- C1 scenario: StartAll with a clean arm and an immediately Busy status. -/
def c1_start : Eff Bool := StartAllCT c1_load.ctrl ("OK") [("OK =Busy Armed")]

/-- C1 scenario: first poll sees zero captured rows and parses the header. -/
def c1_poll0 : Eff Unit := ReadAll c1_start.ctrl 0 2 (some headerLines1) none

/-- C1 scenario: second poll sees the one captured row and decodes it. -/
def c1_poll1 : Eff Unit := ReadAll c1_poll0.ctrl 1 2 none (some ("0.1 5\n"))

/-- C2 scenario: first post-completion poll of the software acquisition,
captured count equal to repetitions (1), draining one data line. -/
def c2_poll1 : Eff Unit := ReadAll c1_start.ctrl 1 2 none (some ("0.1 5\n"))

/-- C2 scenario: second poll of the same finished acquisition; the
captured count still equals repetitions and the END line arrives. -/
def c2_poll2 : Eff Unit := ReadAll c2_poll1.ctrl 1 2 none (some ("END\n"))

/-- C2 scenario: a poll of the same acquisition whose reported captured
count 2 is strictly greater than the expected repetitions 1. -/
def c2_poll_over : Eff Unit := ReadAll c1_start.ctrl 2 2 none (some ("0.1 5\n"))

/-- C3 scenario: hardware synchronization, two axes, axis 2 bound. -/
def c3_dev : Ctrl := AddDevice (AddDevice c0hw 1) 2

/-- C3 scenario: bind axis 2 to COUNTER1.OUT. -/
def c3_bind : Eff Unit := SetExtraAttributePar c3_dev 2 AxAttrName.channelName ("COUNTER1.OUT")

/-- C3 scenario: hardware-synchronized Load with repetitions 3. -/
def c3_load : Eff Unit := LoadOne c3_bind.ctrl 1 (mkRat 1 2) 3

/-- C3 scenario: StartAll with a clean arm and an immediately Busy status. -/
def c3_start : Eff Bool := StartAllCT c3_load.ctrl ("OK") [("OK =Busy Armed")]

/-- C3 scenario: header-parsing poll (zero captured rows). -/
def c3_poll0 : Eff Unit := ReadAll c3_start.ctrl 0 2 (some headerLines1) none

/-- C3 scenario: first data poll, one captured row. -/
def c3_poll1 : Eff Unit := ReadAll c3_poll0.ctrl 1 2 none (some ("0.1 5\n"))

/-- C3 scenario: second data poll, two captured rows. -/
def c3_poll2 : Eff Unit := ReadAll c3_poll1.ctrl 2 2 none (some ("0.2 7\n"))

/-- C3 scenario: third data poll, three captured rows. -/
def c3_poll3 : Eff Unit := ReadAll c3_poll2.ctrl 3 2 none (some ("0.3 9\n"))

/-- C4 scenario: software Load with integration time 4e-08 s, below the
8e-08 s minimum. -/
def c4_load : Eff Unit := LoadOne c1_bind.ctrl 1 (mkRat 4 100000000) 1

/-- C4 scenario: StartAll after the short Load. -/
def c4_start : Eff Bool := StartAllCT c4_load.ctrl ("OK") [("OK =Busy Armed")]

/-- C4 scenario: header-parsing poll. -/
def c4_poll0 : Eff Unit := ReadAll c4_start.ctrl 0 2 (some headerLines1) none

/-- C4 scenario: data poll decoding the one captured row. -/
def c4_poll1 : Eff Unit := ReadAll c4_poll0.ctrl 1 2 none (some ("0.1 5\n"))

/-- C6 scenario: StartAll whose only status poll within the window is a
response containing OK but neither Busy nor Idle. -/
def c6_bad : Eff Bool := StartAllCT c0sw ("OK") [("OK =STATE_UNKNWON")]

/-- C7 scenario: a freshly constructed controller with axis 2 added and
no Load or ReadAll issued yet. -/
def c7_fresh : Ctrl := AddDevice c0sw 2

/-- C7 scenario: controller after one zero-data ReadAll (whose header
read hit a socket error), so new_data exists and is empty. -/
def c7_empty : Eff Unit := ReadAll c7_fresh 0 0 none none

/-- A status response that StateAll maps to a known state without
raising: Busy, or Idle, or lacking the OK token (Fault); a response
containing OK but neither Busy nor Idle instead hits the malformed
debug-format line. -/
def recognizedStatus (s : String) : Bool :=
  strContains s ("Busy") || strContains s ("Idle") || ! strContains s ("OK")

/-- C8 witness state: data present, header parsed, axis 2 bound. -/
def c8w : Ctrl :=
  { c0sw with
    new_data := some [[mkRat 1 2], [mkRat 1 10], [5]]
    channels_order := ["INENC1.VAL", "COUNTER1.OUT"]
    attributes := [(1, { channelName := some ("COUNTER1.OUT"), acquisitionMode := "Value" })] }

/-- C10 witness state: axis 2 added, ChannelName still unset. -/
def c10w : Ctrl :=
  { c0sw with attributes := [(1, { channelName := none, acquisitionMode := "Value" })] }

deriving instance DecidableEq for Except

/-! Helper lemmas shared by the claim theorems. -/

/-- Updating the attributes dict and reading the same key back. -/
theorem lookupA_setA (l : List (Nat × AxisAttr)) (i : Nat) (a : AxisAttr) :
    lookupA (setA l i a) i = some a := by
  induction l with
  | nil => simp [setA, lookupA]
  | cons h t ih =>
    obtain ⟨k, b⟩ := h
    by_cases hk : k = i
    · simp [setA, hk, lookupA]
    · simp [setA, hk, lookupA, ih]

/-- The decode tail of ReadAll never touches the END flag. -/
theorem readAllDecode_data_end_flag (c : Ctrl) (cap : Nat) :
    (ReadAllDecode c cap).1.data_end_flag = c.data_end_flag := by
  unfold ReadAllDecode
  dsimp only
  repeat' split
  all_goals rfl

/-- The decode tail of ReadAll leaves the cursor alone in single-shot
(repetitions = 1) acquisitions. -/
theorem readAllDecode_index (c : Ctrl) (cap : Nat) (h : c.repetitions = 1) :
    (ReadAllDecode c cap).1.index = c.index := by
  unfold ReadAllDecode
  dsimp only
  repeat' split
  all_goals first | rfl | simp_all

/-- _ParseHeader never touches the cursor. -/
theorem parseHeader_index (c : Ctrl) (n : Nat) (hl : Option (List String)) :
    (ParseHeader c n hl).ctrl.index = c.index := by
  unfold ParseHeader
  dsimp only
  repeat' split
  all_goals rfl

/-! The claim theorems. -/

/-- C1: after one software-synchronized Load+StartAll+ReadAll cycle with
integration time 0.5, a stream whose parsed header is INENC1.VAL,
COUNTER1.OUT and whose first decoded data row is 0.1 5 (the header is
parsed by the zero-data poll of the cycle, the data row by the next
poll), ReadOne(1) returns the scalar 0.5 (the synthesized timer column,
column 0) and ReadOne(2), the axis bound to COUNTER1.OUT, returns the
scalar 5, read from the column at the header position of the name plus
one. -/
theorem C1_roundtrip :
    c1_poll0.ctrl.channels_order = ["INENC1.VAL", "COUNTER1.OUT"] ∧
    ReadOne c1_poll1.ctrl 1 = Except.ok (ReadResult.scalar (mkRat 1 2)) ∧
    ReadOne c1_poll1.ctrl 2 = Except.ok (ReadResult.scalar 5) := by
  decide

/-- C2 counterexample: in a finished software acquisition (repetitions
1), each of the two successive ReadAll calls with captured count equal
to repetitions issues PCAP.ENABLE=ZERO, so the disable command is
issued twice, not exactly once, across the ReadAll calls of one
acquisition; and a ReadAll whose captured count 2 is strictly greater
than repetitions (so greater-or-equal holds without equality) issues no
disable command and drains no stream line at all, refuting both the
greater-or-equal trigger and the continued draining asserted for it. -/
theorem C2_counterexample :
    c1_load.ctrl.repetitions = 1 ∧
    (c2_poll1.log ++ c2_poll2.log).count (Cmd.query ("PCAP.ENABLE=ZERO")) = 2 ∧
    c2_poll2.ctrl.data_end_flag = true ∧
    c2_poll_over.log.count (Cmd.query ("PCAP.ENABLE=ZERO")) = 0 ∧
    Cmd.streamReadline ∉ c2_poll_over.log ∧
    c2_poll_over.out = Except.ok () := by
  decide

/-- C3 counterexample: under hardware synchronization with repetitions
3, after three ReadAll polls each appending one data row, ReadOne of
the bound channel returns only the one-element slice beyond the cursor
(the value 9 of the newest row), not the full 3-element sequence, even
though the cursor does equal 3. -/
theorem C3_counterexample :
    ReadOne c3_poll3.ctrl 2 = Except.ok (ReadResult.seqv [9]) ∧
    c3_poll3.ctrl.index = 3 ∧
    ReadResult.seqv [9] ≠ ReadResult.seqv [5, 7, 9] := by
  decide

/-- C4 counterexample: LoadOne(1, 4e-8, 1) sends the clamped pulse-width
command for 8e-8 seconds, but stores the unclamped 4e-8 in itime, and
the timer column synthesized by the following ReadAll is the constant
4e-8, not 8e-8. -/
theorem C4_counterexample :
    Cmd.pulseWidth minItime ∈ c4_load.log ∧
    c4_load.ctrl.itime = some (mkRat 4 100000000) ∧
    c4_poll1.ctrl.new_data = some [[mkRat 4 100000000], [mkRat 1 10], [5]] ∧
    mkRat 4 100000000 ≠ minItime := by
  decide

/-- C6 counterexample: a StartAll whose only status response within the
window contains OK but neither Busy nor Idle fails with the
AttributeError raised by the malformed debug line of StateAll (reading
the still-unset self.status), not with the timeout exception, although
no busy state was ever reported. -/
theorem C6_counterexample :
    (["OK =STATE_UNKNWON"].all (fun p => ! strContains p ("Busy"))) = true ∧
    c6_bad.out = Except.error PyErr.attrError ∧
    c6_bad.out ≠ Except.error (PyErr.exn ("The HW did not start the acquisition")) := by
  decide

/-- C7: ReadOne(2) on a freshly constructed controller, before any Load
or ReadAll, raises AttributeError because self.new_data is first
assigned inside ReadAll and __init__ leaves it unset; once a ReadAll
has run (here a zero-data poll), the explicit empty new_data makes
ReadOne return the no-data result None as the spec intends. -/
theorem C7_attr_error :
    ReadOne c7_fresh 2 = Except.error PyErr.attrError ∧
    ReadOne c7_empty.ctrl 2 = Except.ok ReadResult.noData := by
  decide

/-- C9: LoadOne on any axis other than 1 raises the configuration
exception synchronously, leaves every field of the controller state
unchanged, and sends no appliance command. -/
theorem C9_load_axis (c : Ctrl) (axis : Nat) (v : Rat) (r : Nat) (h : axis ≠ 1) :
    LoadOne c axis v r =
      ⟨c, [], Except.error (PyErr.exn ("The master channel should be the axis 1"))⟩ := by
  unfold LoadOne
  rw [if_pos h]

/-- C9 witness: LoadOne on axis 2 of a fresh controller. -/
theorem C9_load_axis_witness :
    LoadOne c0sw 2 (mkRat 1 2) 1 =
      ⟨c0sw, [], Except.error (PyErr.exn ("The master channel should be the axis 1"))⟩ :=
  C9_load_axis c0sw 2 (mkRat 1 2) 1 (by decide)

/-- C4 amended: for every Load on axis 1 with integration time below
8e-8 seconds, the pulse-width command sent to the appliance is clamped
to the 8e-8 minimum, but the stored integration time (and hence the
constant synthesized into the timer column) is the unclamped value. -/
theorem C4_amended (c : Ctrl) (v : Rat) (r : Nat) (h : v < minItime) :
    Cmd.pulseWidth minItime ∈ (LoadOne c 1 v r).log ∧
    (LoadOne c 1 v r).ctrl.itime = some v := by
  unfold LoadOne
  rw [if_neg (by simp), if_pos h]
  cases hs : isSoftware c.synchronization <;> simp [hs]

/-- C4 amended witness: Load with integration time 4e-8. -/
theorem C4_amended_witness :
    Cmd.pulseWidth minItime ∈ (LoadOne c0sw 1 (mkRat 4 100000000) 1).log ∧
    (LoadOne c0sw 1 (mkRat 4 100000000) 1).ctrl.itime = some (mkRat 4 100000000) :=
  C4_amended c0sw (mkRat 4 100000000) 1 (by decide)

/-- C8: for any axis other than 1 with an attribute record, when data
is present (new_data nonempty), ReadOne raises the configuration
ValueError whenever the bound channel name is absent from the parsed
header order, returning no data at all, and whenever the name is
present it reads the column at the header position of the name plus
one. -/
theorem C8_binding (c : Ctrl) (axis : Nat) (nd : List (List Rat)) (a : AxisAttr)
    (hnd : c.new_data = some nd) (hne : nd ≠ []) (hax : axis ≠ 1)
    (hla : lookupA c.attributes (axis - 1) = some a) :
    (pyStr a.channelName ∉ c.channels_order →
        ReadOne c axis =
          Except.error (PyErr.valueError ("Channel name configured is not enabled in pandabox"))) ∧
    (pyStr a.channelName ∈ c.channels_order →
        ReadOne c axis =
          readColumn c nd (c.channels_order.indexOf (pyStr a.channelName) + 1)) := by
  have hlen : ¬ nd.length = 0 := by simpa using hne
  constructor
  · intro hmem
    unfold ReadOne
    rw [hnd]
    simp only [if_neg hlen, if_neg hax, hla, if_neg hmem]
  · intro hmem
    unfold ReadOne
    rw [hnd]
    simp only [if_neg hlen, if_neg hax, hla, if_pos hmem]

/-- C8 witness: data present, axis 2 bound to COUNTER1.OUT which sits
at header position 1, so the column read is 2. -/
theorem C8_binding_witness :
    ReadOne c8w 2 = readColumn c8w [[mkRat 1 2], [mkRat 1 10], [5]] 2 :=
  (C8_binding c8w 2 [[mkRat 1 2], [mkRat 1 10], [5]]
      { channelName := some ("COUNTER1.OUT"), acquisitionMode := "Value" }
      rfl (by decide) (by decide) (by decide)).2 (by decide)

/-- C10: setting AcquisitionMode to any valid mode on an axis other
than 1 whose ChannelName is still unset raises TypeError while building
the capture command from the unset name, and does so only after the new
mode has already been recorded in the axis attribute record: the
attribute write is not atomic in this case. -/
theorem C10_mode_set_nonatomic (c : Ctrl) (axis : Nat) (m : String) (a : AxisAttr)
    (hax : axis ≠ 1) (hm : m ∈ _modes)
    (hla : lookupA c.attributes (axis - 1) = some a) (hnone : a.channelName = none) :
    (SetExtraAttributePar c axis AxAttrName.acquisitionMode m).out =
        Except.error PyErr.typeError ∧
    lookupA (SetExtraAttributePar c axis AxAttrName.acquisitionMode m).ctrl.attributes
        (axis - 1) = some { a with acquisitionMode := m } := by
  unfold SetExtraAttributePar
  rw [if_neg hax, if_neg (fun h => h.2 hm),
      if_neg (fun h => AxAttrName.noConfusion h.1)]
  simp only [hla, hnone]
  exact ⟨trivial, lookupA_setA c.attributes (axis - 1) _⟩

/-- C10 witness: setting AcquisitionMode to Mean on axis 2 of a
controller whose axis 2 ChannelName is unset. -/
theorem C10_mode_set_nonatomic_witness :
    (SetExtraAttributePar c10w 2 AxAttrName.acquisitionMode ("Mean")).out =
        Except.error PyErr.typeError ∧
    lookupA (SetExtraAttributePar c10w 2 AxAttrName.acquisitionMode ("Mean")).ctrl.attributes 1 =
        some { channelName := none, acquisitionMode := "Mean" } :=
  C10_mode_set_nonatomic c10w 2 ("Mean")
    { channelName := none, acquisitionMode := "Value" } (by decide) (by decide) rfl rfl

/-- C2 amended: a captured-row count equal to the expected repetitions
makes every such ReadAll call (not exactly once per acquisition) issue
the disable-capture command PCAP.ENABLE=ZERO exactly once in that
call; each such call before the END marker drains exactly one further
stream line, a drained line containing END sets the end flag, and once
END has been seen no further stream line is read; a captured count
strictly greater than repetitions makes ReadAll return without any
action (only the captured-count query is issued, only data_ready and
new_data are reset). -/
theorem C2_amended (c : Ctrl) (cap nc : Nat) (hl : Option (List String)) (sl : Option String) :
    (cap = c.repetitions → cap ≠ 0 →
      (ReadAll c cap nc hl sl).log.count (Cmd.query ("PCAP.ENABLE=ZERO")) = 1 ∧
      (c.data_end_flag = true → Cmd.streamReadline ∉ (ReadAll c cap nc hl sl).log) ∧
      (∀ s, sl = some s → c.data_end_flag = false →
        (ReadAll c cap nc hl sl).log.count Cmd.streamReadline = 1) ∧
      (∀ s, sl = some s → strContains s ("END") = true →
        (ReadAll c cap nc hl sl).ctrl.data_end_flag = true)) ∧
    (c.repetitions < cap →
      ReadAll c cap nc hl sl =
        ⟨{ c with data_ready := some cap, new_data := some [] },
          [Cmd.numquery ("*PCAP.CAPTURED?")], Except.ok ()⟩) := by
  constructor
  · intro hcap h0
    subst hcap
    refine ⟨?_, ?_, ?_, ?_⟩
    · unfold ReadAll
      dsimp only
      rw [if_neg h0, if_pos (Nat.le_refl _), if_pos rfl]
      repeat' split
      all_goals rfl
    · intro hflag
      unfold ReadAll
      dsimp only
      rw [if_neg h0, if_pos (Nat.le_refl _), if_pos rfl, hflag]
      simp
    · intro s hs hflag
      subst hs
      unfold ReadAll
      dsimp only
      rw [if_neg h0, if_pos (Nat.le_refl _), if_pos rfl, hflag]
      repeat' split
      all_goals first | rfl | simp_all
    · intro s hs hEnd
      subst hs
      unfold ReadAll
      dsimp only
      rw [if_neg h0, if_pos (Nat.le_refl _), if_pos rfl]
      cases hend : c.data_end_flag <;>
        simp [hend, hEnd, readAllDecode_data_end_flag]
  · intro hover
    unfold ReadAll
    dsimp only
    rw [if_neg (by omega), if_neg (Nat.not_le.mpr hover)]

/-- C2 amended witness: a post-completion poll (captured count equal to
repetitions) that drains the END line issues the disable command
exactly once in that call, reads exactly one stream line, and ends
with the END flag set. -/
theorem C2_amended_witness :
    (ReadAll c1_start.ctrl 1 2 none (some ("END\n"))).log.count
        (Cmd.query ("PCAP.ENABLE=ZERO")) = 1 ∧
    (ReadAll c1_start.ctrl 1 2 none (some ("END\n"))).log.count Cmd.streamReadline = 1 ∧
    (ReadAll c1_start.ctrl 1 2 none (some ("END\n"))).ctrl.data_end_flag = true := by
  have h := (C2_amended c1_start.ctrl 1 2 none (some ("END\n"))).1 (by decide) (by decide)
  exact ⟨h.1, h.2.2.1 ("END\n") rfl (by decide), h.2.2.2 ("END\n") rfl (by decide)⟩

/-- C3 amended: under hardware synchronization with repetitions 3 and
three ReadAll polls each appending one row, ReadOne after the third
poll returns only the newly arrived one-element slice beyond the
cursor (the sequence holding 9), while the cursor advances by the row
count of each poll and equals 3; and single-shot (repetitions = 1,
software) acquisitions never advance the cursor in ReadAll. -/
theorem C3_amended :
    (ReadOne c3_poll3.ctrl 2 = Except.ok (ReadResult.seqv [9]) ∧
     c3_poll1.ctrl.index = 1 ∧ c3_poll2.ctrl.index = 2 ∧ c3_poll3.ctrl.index = 3) ∧
    (∀ (c : Ctrl) (cap nc : Nat) (hl : Option (List String)) (sl : Option String),
       c.repetitions = 1 → (ReadAll c cap nc hl sl).ctrl.index = c.index) := by
  constructor
  · decide
  · intro c cap nc hl sl h
    unfold ReadAll
    dsimp only
    split
    · exact parseHeader_index _ _ _
    · split
      · repeat' split
        all_goals exact readAllDecode_index _ _ h
      · rfl

/-- C3 amended witness: a single-shot (repetitions 1) acquisition state
passes through ReadAll with an unchanged cursor. -/
theorem C3_amended_witness :
    (ReadAll c1_load.ctrl 5 0 none none).ctrl.index = c1_load.ctrl.index :=
  C3_amended.2 c1_load.ctrl 5 0 none none (by decide)

/-- C5: when the arm response lacks the OK token, StartAllCT issues
exactly one disarm and one re-arm directly after the first arm and
before any further command, and the rest of the run — every later
command, the final controller state and the result — is identical to a
clean arm with the same status polls. -/
theorem C5_arm_retry (c : Ctrl) (armBad armGood : String) (polls : List String)
    (hbad : strContains armBad ("OK") = false)
    (hgood : strContains armGood ("OK") = true) :
    ∃ rest : List Cmd,
      (StartAllCT c armGood polls).log = Cmd.query ("*PCAP.ARM=") :: rest ∧
      (StartAllCT c armBad polls).log =
        Cmd.query ("*PCAP.ARM=") :: Cmd.query ("*PCAP.DISARM=") ::
          Cmd.query ("*PCAP.ARM=") :: rest ∧
      (StartAllCT c armBad polls).ctrl = (StartAllCT c armGood polls).ctrl ∧
      (StartAllCT c armBad polls).out = (StartAllCT c armGood polls).out := by
  refine ⟨(Cmd.query ("PCAP.ENABLE=ONE") ::
      (if isSoftware c.synchronization then
        [Cmd.query ("PULSE1.TRIG=ZERO"), Cmd.query ("PULSE1.TRIG=ONE")] else [])) ++
      (pollStatuses c polls).log, ?_, ?_, ?_, ?_⟩ <;>
    unfold StartAllCT <;>
    cases hp : (pollStatuses c polls).out <;>
    cases hs : isSoftware c.synchronization <;>
    simp [hp, hs, hbad, hgood]

/-- C5 witness: a rejected then retried arm versus a clean arm on a
fresh controller with one Busy status poll. -/
theorem C5_arm_retry_witness :
    ∃ rest : List Cmd,
      (StartAllCT c0sw ("OK") [("Busy")]).log = Cmd.query ("*PCAP.ARM=") :: rest ∧
      (StartAllCT c0sw ("ERR") [("Busy")]).log =
        Cmd.query ("*PCAP.ARM=") :: Cmd.query ("*PCAP.DISARM=") ::
          Cmd.query ("*PCAP.ARM=") :: rest ∧
      (StartAllCT c0sw ("ERR") [("Busy")]).ctrl = (StartAllCT c0sw ("OK") [("Busy")]).ctrl ∧
      (StartAllCT c0sw ("ERR") [("Busy")]).out = (StartAllCT c0sw ("OK") [("Busy")]).out :=
  C5_arm_retry c0sw ("ERR") ("OK") [("Busy")] (by decide) (by decide)

/-- When every status poll is recognized and none reports Busy, the
poll loop exhausts the window and raises the timeout exception. -/
theorem pollStatuses_timeout (polls : List String) : ∀ (c : Ctrl),
    (∀ p ∈ polls, recognizedStatus p = true) →
    (∀ p ∈ polls, strContains p ("Busy") = false) →
    (pollStatuses c polls).out =
      Except.error (PyErr.exn ("The HW did not start the acquisition")) := by
  induction polls with
  | nil => intro c _ _; rfl
  | cons p ps ih =>
    intro c hrec hbusy
    have hb : strContains p ("Busy") = false := hbusy p (List.mem_cons_self p ps)
    have hr : recognizedStatus p = true := hrec p (List.mem_cons_self p ps)
    have ihc := fun c2 => ih c2 (fun q hq => hrec q (List.mem_cons_of_mem p hq))
      (fun q hq => hbusy q (List.mem_cons_of_mem p hq))
    by_cases hi : strContains p ("Idle") = true
    · simp [pollStatuses, StateAll, hb, hi, ihc]
    · have ho : strContains p ("OK") = false := by
        simp [recognizedStatus, hb, hi] at hr
        simpa using hr
      simp [pollStatuses, StateAll, hb, hi, ho, ihc]

/-- When every status poll is recognized and some poll reports Busy,
the poll loop succeeds. -/
theorem pollStatuses_busy (polls : List String) : ∀ (c : Ctrl),
    (∀ p ∈ polls, recognizedStatus p = true) →
    (∃ p ∈ polls, strContains p ("Busy") = true) →
    (pollStatuses c polls).out = Except.ok () := by
  induction polls with
  | nil => intro c _ hex; simp at hex
  | cons p ps ih =>
    intro c hrec hex
    by_cases hb : strContains p ("Busy") = true
    · simp [pollStatuses, StateAll, hb]
    · have hb' : strContains p ("Busy") = false := by simpa using hb
      have hr : recognizedStatus p = true := hrec p (List.mem_cons_self p ps)
      have hex' : ∃ q ∈ ps, strContains q ("Busy") = true := by
        obtain ⟨q, hq, hqb⟩ := hex
        rcases List.mem_cons.mp hq with hqe | hqm
        · exact absurd (hqe ▸ hqb) hb
        · exact ⟨q, hqm, hqb⟩
      have ihc := fun c2 => ih c2 (fun q hq => hrec q (List.mem_cons_of_mem p hq)) hex'
      by_cases hi : strContains p ("Idle") = true
      · simp [pollStatuses, StateAll, hb', hi, ihc]
      · have ho : strContains p ("OK") = false := by
          simp [recognizedStatus, hb', hi] at hr
          simpa using hr
        simp [pollStatuses, StateAll, hb', hi, ho, ihc]

/-- Every request of the poll loop is the status query: the loop never
touches the data stream. -/
theorem pollStatuses_log (polls : List String) : ∀ (c : Ctrl),
    ∀ k ∈ (pollStatuses c polls).log, k = Cmd.query ("*PCAP.STATUS?") := by
  induction polls with
  | nil => intro c k hk; simp [pollStatuses] at hk
  | cons p ps ih =>
    intro c k hk
    have hlog : (StateAll c p).log = [Cmd.query ("*PCAP.STATUS?")] := by
      unfold StateAll
      repeat' split
      all_goals rfl
    rcases hout : (StateAll c p).out with e | u <;>
      simp only [pollStatuses, hout, hlog] at hk
    · simpa using hk
    · split at hk
      · simpa using hk
      · simp only [Eff.log] at hk
        rcases List.mem_cons.mp hk with hk1 | hk2
        · exact hk1
        · exact ih _ k hk2

/-- Every request issued by StartAllCT is an appliance command-channel
query: StartAllCT never consumes the data stream. -/
theorem startAllCT_no_stream (c : Ctrl) (arm : String) (polls : List String) :
    ∀ k ∈ (StartAllCT c arm polls).log,
      k ≠ Cmd.streamReadline ∧ ∀ n, k ≠ Cmd.streamReadlines n := by
  intro k hk
  obtain ⟨s, rfl⟩ : ∃ s, k = Cmd.query s := by
    unfold StartAllCT at hk
    dsimp only at hk
    rcases hout : (pollStatuses c polls).out with e | u <;>
      rw [hout] at hk <;> dsimp only at hk <;>
      rcases List.mem_append.mp hk with h1 | h2
    all_goals first
      | exact ⟨_, pollStatuses_log polls c k h2⟩
      | (split at h1 <;> split at h1 <;> simp at h1 <;> tauto)
  exact ⟨by simp, fun n => by simp⟩

/-- C6 amended: for every StartAll whose status polls within the
3-second window all map to recognized states, if none reports Busy then
StartAll fails with the timeout exception and never touches the data
stream; if some poll reports Busy, StartAll returns successfully.  (A
poll response containing OK but neither Busy nor Idle instead raises
through the malformed debug-format line of StateAll, see the
counterexample.) -/
theorem C6_amended (c : Ctrl) (arm : String) (polls : List String)
    (hrec : ∀ p ∈ polls, recognizedStatus p = true) :
    ((∀ p ∈ polls, strContains p ("Busy") = false) →
        (StartAllCT c arm polls).out =
          Except.error (PyErr.exn ("The HW did not start the acquisition")) ∧
        ∀ k ∈ (StartAllCT c arm polls).log,
          k ≠ Cmd.streamReadline ∧ ∀ n, k ≠ Cmd.streamReadlines n) ∧
    ((∃ p ∈ polls, strContains p ("Busy") = true) →
        (StartAllCT c arm polls).out = Except.ok true) := by
  constructor
  · intro hbusy
    refine ⟨?_, startAllCT_no_stream c arm polls⟩
    have ht := pollStatuses_timeout polls c hrec hbusy
    unfold StartAllCT
    dsimp only
    rw [ht]
  · intro hex
    have ht := pollStatuses_busy polls c hrec hex
    unfold StartAllCT
    dsimp only
    rw [ht]

/-- C6 amended witness: one recognized Idle poll and no Busy within the
window makes StartAll fail with the timeout exception. -/
theorem C6_amended_witness :
    (StartAllCT c0sw ("OK") [("Idle")]).out =
      Except.error (PyErr.exn ("The HW did not start the acquisition")) :=
  ((C6_amended c0sw ("OK") [("Idle")] (by decide)).1 (by decide)).1

end Pandabox
